import Mathlib

/-!
Verification development for the `python-odbtp` driver (Python DB API 2.0
bindings for the ODBTP protocol).  The definitions below are a shallow
embedding of `odbtp/errors.py`, `odbtp/types.py` and `odbtp/connection.py`.
Native-library calls (`libodbtp.so`) are modelled by an explicit oracle held
in the state, and every transport call is recorded in a trace.

The module `odbtp/constants.py` is not part of the sources; the constants it
supplies are modelled from the spec (see the doc comments on `OdbtpErr` and
on the `ODB_*` / `SQL_*` definitions).
-/

namespace Odbtp

/-! ## errors.py : the DB API exception taxonomy -/

/-- The exception classes declared in `odbtp/errors.py` (plus the built-in
Python exceptions that the driver can raise by accident: `NameError` for an
unbound global, `AttributeError` for an attribute of `None`, `TypeErr` for
`len(None)`-style failures, which the source can hit on some paths). -/
inductive ExcClass where
  | Warning
  | Error
  | InterfaceError
  | DatabaseError
  | DataError
  | OperationalError
  | IntegrityError
  | InternalError
  | ProgrammingError
  | NotSupportedError
  | NameError
  | AttributeError
  | TypeErr
  deriving DecidableEq, Repr

/-- Modelled from the spec: the protocol-level error codes supplied by the
missing `odbtp/constants.py` (`ODBTPERR_*`).  The spec (§4.5 step 2) lists the
named codes; their concrete integer values are unknown, so they are modelled
as an enumerated type, with `OTHER n` standing for any integer outside the
named set. -/
inductive OdbtpErr where
  | NONE
  | MEMORY
  | HANDLE
  | CONNECT
  | READ
  | SEND
  | TIMEOUTCONN
  | TIMEOUTREAD
  | TIMEOUTSEND
  | CONNECTED
  | PROTOCOL
  | RESPONSE
  | MAXQUERYS
  | COLNUMBER
  | COLNAME
  | FETCHROW
  | NOTPREPPROC
  | NOPARAMINFO
  | PARAMNUMBER
  | PARAMNAME
  | PARAMBIND
  | PARAMGET
  | ATTRTYPE
  | GETQUERY
  | INTERFFILE
  | INTERFSYN
  | INTERFTYPE
  | CONNSTRLEN
  | NOSEEKCURSOR
  | SEEKROWPOS
  | DETACHED
  | GETTYPEINFO
  | LOADTYPES
  | NOREQUEST
  | FETCHEDROWS
  | DISCONNECTED
  | HOSTRESOLVE
  | SERVER
  | OTHER (n : Nat)
  deriving DecidableEq, Repr

/-- The constructor argument of a raised exception: nothing (`InterfaceError()`),
a message string, or a raw protocol error code (`Error(odbtp_error)`). -/
inductive ExcArg where
  | none
  | str (s : String)
  | code (e : OdbtpErr)
  deriving DecidableEq, Repr

/-- An exception instance: its class together with its constructor argument. -/
structure PyExc where
  cls : ExcClass
  arg : ExcArg
  deriving DecidableEq, Repr

/-- The `ODBTP_ERRORS` dictionary of `errors.py`: pre-built exception
instances for each protocol error code; `none` for codes absent from the
dictionary (`ODBTPERR_NONE`, `ODBTPERR_SERVER` and unknown codes). -/
def ODBTP_ERRORS : OdbtpErr → Option PyExc
  | .MEMORY       => some ⟨.InterfaceError, .str "Memory error."⟩
  | .HANDLE       => some ⟨.InterfaceError, .str "Connection or cursor handle error."⟩
  | .CONNECT      => some ⟨.InterfaceError, .str "Connection error."⟩
  | .READ         => some ⟨.InterfaceError, .str "Read error."⟩
  | .SEND         => some ⟨.InterfaceError, .str "Send error."⟩
  | .TIMEOUTCONN  => some ⟨.InterfaceError, .str "Connection timed out."⟩
  | .TIMEOUTREAD  => some ⟨.InterfaceError, .str "Read timed out."⟩
  | .TIMEOUTSEND  => some ⟨.InterfaceError, .str "Send timed out."⟩
  | .CONNECTED    => some ⟨.InterfaceError, .str "Connection error."⟩
  | .PROTOCOL     => some ⟨.InterfaceError, .str "Protocol error."⟩
  | .RESPONSE     => some ⟨.InterfaceError, .str "Response error."⟩
  | .MAXQUERYS    => some ⟨.InterfaceError, .str "Maximum queries exceeded."⟩
  | .COLNUMBER    => some ⟨.InterfaceError, .str "Column number error."⟩
  | .COLNAME      => some ⟨.InterfaceError, .str "Column name error."⟩
  | .FETCHROW     => some ⟨.InterfaceError, .str "Error fetching row."⟩
  | .NOTPREPPROC  => some ⟨.InterfaceError, .str "Not a prepared procedure."⟩
  | .NOPARAMINFO  => some ⟨.InterfaceError, .str "Missing required parameter info."⟩
  | .PARAMNUMBER  => some ⟨.InterfaceError, .str "Parameter number error."⟩
  | .PARAMNAME    => some ⟨.InterfaceError, .str "Parameter name error."⟩
  | .PARAMBIND    => some ⟨.InterfaceError, .str "Parameter binding error."⟩
  | .PARAMGET     => some ⟨.InterfaceError, .str "Paramter retrieval error."⟩
  | .ATTRTYPE     => some ⟨.InterfaceError, .str "Attribute type error."⟩
  | .GETQUERY     => some ⟨.InterfaceError, .str "Query error."⟩
  | .INTERFFILE   => some ⟨.InterfaceError, .none⟩
  | .INTERFSYN    => some ⟨.InterfaceError, .none⟩
  | .INTERFTYPE   => some ⟨.InterfaceError, .none⟩
  | .CONNSTRLEN   => some ⟨.InterfaceError, .str "Connection string length error."⟩
  | .NOSEEKCURSOR => some ⟨.InterfaceError, .str "No seek cursor."⟩
  | .SEEKROWPOS   => some ⟨.InterfaceError, .str "Seek row position error."⟩
  | .DETACHED     => some ⟨.InterfaceError, .str "Connection has been detached."⟩
  | .GETTYPEINFO  => some ⟨.InterfaceError, .str "Error getting type info."⟩
  | .LOADTYPES    => some ⟨.InterfaceError, .str "Error loading types."⟩
  | .NOREQUEST    => some ⟨.InterfaceError, .str "No request."⟩
  | .FETCHEDROWS  => some ⟨.InterfaceError, .str "Error in fetched rows."⟩
  | .DISCONNECTED => some ⟨.InterfaceError, .str "Disconnected."⟩
  | .HOSTRESOLVE  => some ⟨.InterfaceError, .str "Cannot resolve host."⟩
  | _             => none

/-- The `ODBC_ERROR_CODES` dictionary of `errors.py`: SQLSTATE class code
(two characters) to exception class. -/
def ODBC_ERROR_CODES : String → Option ExcClass
  | "01" => some .Warning
  | "07" => some .ProgrammingError
  | "08" => some .InterfaceError
  | "21" => some .ProgrammingError
  | "22" => some .ProgrammingError
  | "23" => some .IntegrityError
  | "24" => some .InternalError
  | "25" => some .InternalError
  | "28" => some .DatabaseError
  | "34" => some .InternalError
  | "3C" => some .InternalError
  | "3D" => some .ProgrammingError
  | "3F" => some .ProgrammingError
  | "40" => some .IntegrityError
  | "42" => some .ProgrammingError
  | "44" => some .DatabaseError
  | "HY" => some .ProgrammingError
  | "IM" => some .InterfaceError
  | _    => none

/-- The `HY_ERROR_CODES` dictionary of `errors.py`: subcode (three characters)
of the `HY` SQLSTATE class to exception class. -/
def HY_ERROR_CODES : String → Option ExcClass
  | "000" => some .Error
  | "001" => some .InterfaceError
  | "003" => some .DataError
  | "004" => some .DataError
  | "008" => some .OperationalError
  | "014" => some .InterfaceError
  | "018" => some .OperationalError
  | "C00" => some .NotSupportedError
  | "T00" => some .OperationalError
  | "T01" => some .OperationalError
  | _     => none

/-- Python's `str.isspace` character class, as used by `str.strip()`. -/
def pyIsSpace (c : Char) : Bool :=
  c = ' ' ∨ c = '\t' ∨ c = '\n' ∨ c = '\r' ∨ c = '\x0b' ∨ c = '\x0c'

/-- Python's `str.strip()` on a character list. -/
def pyStrip (l : List Char) : List Char :=
  ((l.dropWhile pyIsSpace).reverse.dropWhile pyIsSpace).reverse

/-- Python's `str.replace('\r\n', '\n')`: left-to-right, non-overlapping. -/
def replaceCRLF : List Char → List Char
  | '\r' :: '\n' :: rest => '\n' :: replaceCRLF rest
  | c :: rest => c :: replaceCRLF rest
  | [] => []

/-- Python's `str.replace('\r', '\n')`. -/
def replaceCR : List Char → List Char
  | '\r' :: rest => '\n' :: replaceCR rest
  | c :: rest => c :: replaceCR rest
  | [] => []

/-- Python's `str.split(sep)` for a one-character separator (`''.split(sep)`
is `['']`, as in Python). -/
def pySplitChar (sep : Char) : List Char → List (List Char)
  | [] => [[]]
  | c :: rest =>
    if c = sep then [] :: pySplitChar sep rest
    else match pySplitChar sep rest with
      | [] => [[c]]
      | part :: parts => (c :: part) :: parts

/-- Python's `s[a:b]` slice (clamping at either end, like Python). -/
def pySliceL (l : List Char) (a b : Nat) : List Char :=
  (l.drop a).take (b - a)

/-- Python's `str.upper()` (the inputs here are ASCII SQLSTATE codes). -/
def pyUpper (l : List Char) : List Char := l.map Char.toUpper

/-- The normalized underlying-error text used by `get_exception`:
`odb.odbGetErrorText(handle).strip()` followed by
`.replace('\r\n', '\n').replace('\r', '\n')`. -/
def normTextL (t : String) : List Char :=
  replaceCR (replaceCRLF (pyStrip t.data))

/-- The function `normTextL` repackaged as a string: this is the `odbc_error` value the
source passes to the exception constructors. -/
def normText (t : String) : String := String.mk (normTextL t)

/-- Embedding of `error_parts` in `get_exception`: first line of the normalized text,
split on `']'`. -/
def errorPartsL (t : String) : List (List Char) :=
  pySplitChar ']' ((pySplitChar '\n' (normTextL t)).headD [])

/-- Embedding of `error_code` in `get_exception`: `error_parts[0][1:3].upper()`. -/
def errClassCode (t : String) : String :=
  String.mk (pyUpper (pySliceL ((errorPartsL t).headD []) 1 3))

/-- Embedding of `error_subcode` in `get_exception`: `error_parts[0][3:6].upper()`. -/
def errSubCode (t : String) : String :=
  String.mk (pyUpper (pySliceL ((errorPartsL t).headD []) 3 6))

/-- Embedding of `errors.get_exception`.  The handle's error state is passed explicitly:
`odbtp_error` is what `odb.odbGetError(handle)` reports and `raw_text` is what
`odb.odbGetErrorText(handle)` reports (read only on the `ODBTPERR_SERVER`
path, as in the source). -/
def get_exception (odbtp_error : OdbtpErr) (raw_text : String) : PyExc :=
  if odbtp_error = .NONE then ⟨.Error, .str "Unknown error."⟩
  else match ODBTP_ERRORS odbtp_error with
  | some exc => exc
  | none =>
    if odbtp_error = .SERVER then
      let stripped := pyStrip raw_text.data
      if stripped = [] ∨ stripped = "None".data then ⟨.Error, .str "Unknown Error."⟩
      else
        let odbc_error := normText raw_text
        let error_parts := errorPartsL raw_text
        if error_parts.length < 2 then ⟨.Error, .code odbtp_error⟩
        else
          let error_code := errClassCode raw_text
          let error_subcode := errSubCode raw_text
          if error_code = "HY" ∧ (HY_ERROR_CODES error_subcode).isSome then
            ⟨(HY_ERROR_CODES error_subcode).getD .Error, .str odbc_error⟩
          else match ODBC_ERROR_CODES error_code with
            | some cls => ⟨cls, .str odbc_error⟩
            | none => ⟨.Error, .str odbc_error⟩
    else ⟨.Error, .str "Unknown error."⟩

/-! ## types.py : wire-type constants and type descriptors

Modelled from the spec: the numeric values of the `ODB_*` wire-type constants
come from the missing `odbtp/constants.py`.  The spec treats them as opaque
distinct codes (§4.3, §4.4), so they are modelled as distinct integers chosen
not to collide with the `SQL_*` codes or with the literal codes `91`, `92`,
`-9`, `2`, `1` tested by `get_odb_type`.  The `SQL_*` codes carry their
ODBC-standard values, which the spec's literals (`91` for date, `92` for time,
`-9` for wide varchar, `2` for numeric) corroborate. -/

def ODB_BINARY    : Int := 101
def ODB_BIGINT    : Int := 102
def ODB_UBIGINT   : Int := 103
def ODB_BIT       : Int := 104
def ODB_CHAR      : Int := 105
def ODB_DATE      : Int := 106
def ODB_DATETIME  : Int := 107
def ODB_DOUBLE    : Int := 108
def ODB_FLOAT     : Int := 109
def ODB_GUID      : Int := 110
def ODB_INT       : Int := 111
def ODB_UINT      : Int := 112
def ODB_NUMERIC   : Int := 113
def ODB_REAL      : Int := 114
def ODB_SMALLINT  : Int := 115
def ODB_USMALLINT : Int := 116
def ODB_TIME      : Int := 117
def ODB_TINYINT   : Int := 118
def ODB_UTINYINT  : Int := 119
def ODB_WCHAR     : Int := 120

def SQL_CHAR   : Int := 1
def SQL_BINARY : Int := -2
def SQL_BIGINT : Int := -5
def SQL_DOUBLE : Int := 8

/-- Tag for the `odb_set_func` slot of a type descriptor: which
`odbSetParam*` transport primitive the descriptor writes values with
(`unset` models the base class's `odb_set_func = None`). -/
inductive SetFunc where
  | unset
  | text
  | longlong
  | double
  deriving DecidableEq, Repr

/-- A `_DbApiTypeObject` instance: the per-instance attributes of
`types.py` (the `values` tuple lives on the class, not the instance, and is
not needed by the claims).  `cursor` is not stored here: the single-cursor
state model supplies it. -/
structure Descriptor where
  odb_type : Int := 0
  sql_type : Int := 0
  size : Int := 0
  max_size : Int := 0
  precision : Int := 0
  col_number : Nat := 0
  final : Bool := false
  bound : Bool := false
  odb_set_func : SetFunc := .unset
  deriving DecidableEq, Repr

/-- Embedding of `_DbApiTypeObject()`: the bare base-class instance returned by
`get_db_api_type` for `None` values (all class-level defaults). -/
def baseTypeObject : Descriptor := {}

/-- Embedding of `STRING.__init__(max_size)`. -/
def STRING_init (max_size : Int) : Descriptor :=
  { odb_type := ODB_CHAR, sql_type := SQL_CHAR, odb_set_func := .text,
    max_size := max_size, size := max_size }

/-- Embedding of `BINARY.__init__(max_size)`. -/
def BINARY_init (max_size : Int) : Descriptor :=
  { odb_type := ODB_CHAR, sql_type := SQL_BINARY, odb_set_func := .text,
    max_size := max_size, size := max_size }

/-- Python's `str.lower()` (ASCII inputs here). -/
def pyLower (s : String) : String := String.mk (s.data.map Char.toLower)

/-- Embedding of `NUMBER.__init__(sub_type='numeric')`.  Returns the constructed instance
or the exception the constructor raises.  Note the source accepts only
`'int'`, `'float'` and `'decimal'`: the default `'numeric'` falls through to
`raise ProgrammingError('Illegal sub_type for NUMBER.')`. -/
def NUMBER_init (sub_type : String := "numeric") : Except PyExc Descriptor :=
  let st := pyLower sub_type
  let precision : Int := 8
  if st = "int" then
    .ok { odb_type := ODB_BIGINT, sql_type := SQL_BIGINT,
          odb_set_func := .longlong, precision := precision }
  else if st = "float" then
    .ok { odb_type := ODB_DOUBLE, sql_type := SQL_DOUBLE,
          odb_set_func := .double, precision := precision }
  else if st = "decimal" then
    .ok { odb_type := ODB_CHAR, sql_type := SQL_CHAR,
          odb_set_func := .text, precision := precision }
  else
    .error ⟨.ProgrammingError, .str "Illegal sub_type for NUMBER."⟩

/-- Embedding of `DATETIME.__init__(sub_type='datetime')`. -/
def DATETIME_init (sub_type : String := "datetime") : Except PyExc Descriptor :=
  let st := pyLower sub_type
  let base : Descriptor :=
    { odb_type := ODB_CHAR, sql_type := SQL_CHAR, odb_set_func := .text }
  if st = "datetime" ∨ st = "timestamp" then
    .ok { base with max_size := 22, size := 22 }
  else if st = "date" then
    .ok { base with max_size := 10, size := 10 }
  else if st = "time" then
    .ok { base with max_size := 11, size := 11 }
  else
    .error ⟨.ProgrammingError, .str "Illegal sub_type for DATETIME."⟩

/-- A Python host value, as classified by `get_db_api_type`'s `isinstance`
chain.  `Binary` is a `str` subclass and `datetime` a `date` subclass; the
source orders its checks so that the more specific class wins, which the
disjoint constructors reproduce.  `obj tyName` stands for any value of an
unsupported type (with the printed type name). -/
inductive PyValue where
  | none
  | binary (s : String)
  | str (s : String)
  | datetime (y mo d h mi sec : Nat)
  | date (y mo d : Nat)
  | time (h mi sec : Nat)
  | int (i : Int)
  | decimal (s : String)
  | float (s : String)
  | obj (tyName : String)
  deriving DecidableEq, Repr

/-- Embedding of `types.get_db_api_type(self, value)` (the `self` parameter is unused in
the source body and omitted here).  For `Decimal` values the source calls
`NUMBER()` with the default sub_type `'numeric'`. -/
def get_db_api_type : PyValue → Except PyExc Descriptor
  | .none => .ok baseTypeObject
  | .binary s => .ok (BINARY_init s.length)
  | .str s => .ok (STRING_init s.length)
  | .datetime _ _ _ _ _ _ => DATETIME_init
  | .date _ _ _ => DATETIME_init "date"
  | .time _ _ _ => DATETIME_init "time"
  | .int _ => NUMBER_init "int"
  | .decimal _ => NUMBER_init
  | .float _ => NUMBER_init "float"
  | .obj tyName => .error ⟨.DataError, .str s!"Data type {tyName} is not supported."⟩

/-- Embedding of `types.get_odb_type`, with the two type signals passed explicitly:
`sql_type` is what `odb.odbColSqlType(handle, column)` reports and `odb_type`
what `odb.odbColDataType(handle, column)` reports. -/
def get_odb_type (sql_type odb_type : Int) : Int :=
  if sql_type = odb_type then odb_type
  else if sql_type = 91 ∧ odb_type = ODB_CHAR then ODB_DATE
  else if sql_type = 92 ∧ odb_type = ODB_CHAR then ODB_TIME
  else if sql_type = -9 ∧ odb_type = ODB_WCHAR then ODB_CHAR
  else if sql_type = 2 ∧ odb_type = 1 then ODB_NUMERIC
  else odb_type

/-! ## connection.py : the Connection/Cursor state machine

The native `libodbtp.so` calls are modelled by an oracle carried in the
state (`World`): one success flag per fallible transport primitive, the
handle's error state for `get_exception`, and the pending result set as a
list of already-decoded rows (`RowDecoder`'s address-based byte decoding is
not representable in a shallow embedding; a short row models null data
addresses, which `get_data` decodes to `None`).  Every transport call is
recorded in a trace.  Exceptions carry the state at the raise point, as the
Python state persists when an exception propagates. -/

/-- One transport (`odb.*`) call, as recorded in the trace. -/
inductive Ev where
  | allocate (parent ret : Nat)
  | free (h : Nat)
  | commit (h : Nat)
  | rollback (h : Nat)
  | prepare (h : Nat) (operation : String)
  | prepareProc (procname : String)
  | execute (h : Nat)
  | bindParamEx (h col : Nat)
  | setParam (h col : Nat)
  | setParamNull (h col : Nat)
  | fetchRow (h : Nat)
  | noData (h : Nat)
  | fetchNextResult (h : Nat)
  | getTotalCols (h : Nat)
  | getRowCount (h : Nat)
  deriving DecidableEq, Repr

/-- The transport oracle plus the recorded call trace.  `nextHandle` feeds
`odbAllocate` (fresh nonzero handles when `allocOk`); the `*Ok` flags decide
the success of each fallible primitive; `errState` is what
`odbGetError`/`odbGetErrorText` report; `remaining` is the not-yet-fetched
tail of the current result set. -/
structure World where
  nextHandle : Nat
  trace : List Ev
  errState : OdbtpErr × String
  allocOk : Bool := true
  prepareOk : Bool := true
  prepareProcOk : Bool := true
  executeOk : Bool := true
  rollbackOk : Bool := true
  commitOk : Bool := true
  bindOk : Bool := true
  setParamOk : Bool := true
  setParamNullOk : Bool := true
  fetchRowOk : Bool := true
  fetchNextOk : Bool := true
  remaining : List (List PyValue) := []
  truncCols : List Nat := []
  colActualLens : List Int := []
  colNames : List String := []
  colSqlTypes : List Int := []
  colOdbTypes : List Int := []
  rowCountVal : Int := 0
  deriving DecidableEq, Repr

/-- The `Connection` attributes (`isOpen` is `self.open` in the source). -/
structure Conn where
  isOpen : Bool
  handle : Nat
  committed : Bool
  deriving DecidableEq, Repr

/-- The `Cursor` attributes (`isOpen` is `self.open`; `description` keeps the
mandatory `(name, type_code)` of each 7-tuple, the other five entries being
fixed to `None` in the source). -/
structure Cur where
  isOpen : Bool
  handle : Nat
  arraysize : Nat
  description : Option (List (String × Int))
  prepared_operation : Option String
  input_sizes : List Descriptor
  rowcount : Int
  deriving DecidableEq, Repr

/-- The combined program state: one connection, the cursor under study, and
the transport world. -/
structure S where
  conn : Conn
  cur : Cur
  world : World
  deriving DecidableEq, Repr

/-- Append a transport call to the trace. -/
def addEv (s : S) (e : Ev) : S :=
  { s with world := { s.world with trace := s.world.trace ++ [e] } }

/-- The value `get_exception(handle)` read off the current handle error state. -/
def getExc (s : S) : PyExc :=
  get_exception s.world.errState.1 s.world.errState.2

/-- The `InterfaceError` of `Cursor._assert_cursor_is_open`. -/
def cursorClosedExc : PyExc :=
  ⟨.InterfaceError, .str "Cursor or connection has been closed."⟩

/-- The `InterfaceError` of `Connection._assert_connection_is_open`. -/
def connClosedExc : PyExc :=
  ⟨.InterfaceError, .str "The connection has been closed."⟩

/-- Embedding of `Connection.rollback`. -/
def Connection_rollback (s : S) : Except (PyExc × S) S :=
  if ¬ s.conn.isOpen then .error (connClosedExc, s)
  else
    let s := addEv s (.rollback s.conn.handle)
    if ¬ s.world.rollbackOk then .error (getExc s, s) else .ok s

/-- Embedding of `Connection.commit`. -/
def Connection_commit (s : S) : Except (PyExc × S) S :=
  if ¬ s.conn.isOpen then .error (connClosedExc, s)
  else
    let s := addEv s (.commit s.conn.handle)
    if ¬ s.world.commitOk then .error (getExc s, s)
    else .ok { s with conn := { s.conn with committed := true } }

/-- The recurring failure pattern of `connection.py` and `types.py`:
`self.connection.rollback()` followed by `raise get_exception(...)`.  If the
rollback itself raises, that exception propagates instead (the `raise` line
is never reached), exactly as in Python. -/
def rollbackAndRaise {α : Type} (s : S) : Except (PyExc × S) α :=
  match Connection_rollback s with
  | .ok s' => .error (getExc s', s')
  | .error es => .error es

/-- Embedding of `odbAllocate`: fresh nonzero handle on success, `0` on failure. -/
def odbAllocate (parent : Nat) (s : S) : Nat × S :=
  if s.world.allocOk then
    let h := s.world.nextHandle
    let s := { s with world := { s.world with nextHandle := s.world.nextHandle + 1 } }
    (h, addEv s (.allocate parent h))
  else (0, addEv s (.allocate parent 0))

/-- Embedding of `Connection.cursor`: asserts the connection open, allocates a child
handle into the local `cursorhandle` (never used again), then builds
`Cursor(self)`, whose `__init__` allocates a second child handle and
initializes the cursor attributes. -/
def Connection_cursor (s : S) : Except (PyExc × S) (Cur × S) :=
  if ¬ s.conn.isOpen then .error (connClosedExc, s)
  else
    let (cursorhandle, s) := odbAllocate s.conn.handle s
    if cursorhandle = 0 then .error (getExc s, s)
    else
      -- Cursor.__init__(self, connection)
      let (h, s) := odbAllocate s.conn.handle s
      if h = 0 then .error (getExc s, s)
      else
        .ok ({ isOpen := true, handle := h, arraysize := 1, description := none,
               prepared_operation := none, input_sizes := [], rowcount := -1 }, s)

/-- Embedding of `_DbApiTypeObject.bind_to_column`: informs the server of the parameter
shape and records the returned binding status on the descriptor; on failure,
rollback and raise. -/
def bind_to_column (d : Descriptor) (col total_cols : Nat) (s : S) :
    Except (PyExc × S) (Descriptor × S) :=
  let d := { d with col_number := col, final := col == total_cols,
                    bound := s.world.bindOk }
  let s := addEv s (.bindParamEx s.cur.handle col)
  if ¬ d.bound then rollbackAndRaise s
  else .ok (d, s)

/-- Embedding of `_DbApiTypeObject.set_parameter`: requires `self.bound`; `None` values go
through `odbSetParamNull`, other values through the descriptor's
`odb_set_func` (calling the base class's `None` slot is a `TypeError`); on a
failed transport call, rollback and raise. -/
def set_parameter (d : Descriptor) (value : PyValue) (s : S) :
    Except (PyExc × S) S :=
  if ¬ d.bound then
    .error (⟨.InterfaceError, .str "You must bind a parameter before setting."⟩, s)
  else
    match value with
    | .none =>
      let s := addEv s (.setParamNull s.cur.handle d.col_number)
      if ¬ s.world.setParamNullOk then rollbackAndRaise s else .ok s
    | _ =>
      match d.odb_set_func with
      | .unset => .error (⟨.TypeErr, .str "NoneType object is not callable"⟩, s)
      | _ =>
        let s := addEv s (.setParam s.cur.handle d.col_number)
        if ¬ s.world.setParamOk then rollbackAndRaise s else .ok s

/-- Embedding of `Cursor._update_description`: reads the column count and rebuilds the
description from the per-column name and the reconciled type
(`get_odb_type` of the two reported signals). -/
def update_description (s : S) : S :=
  let s := addEv s (.getTotalCols s.cur.handle)
  let n := s.world.colNames.length
  let description := (List.range n).map fun i =>
    (s.world.colNames.getD i "",
     get_odb_type (s.world.colSqlTypes.getD i 0) (s.world.colOdbTypes.getD i 0))
  { s with cur := { s.cur with description := some description } }

/-- The `for index, db_api_type in enumerate(self.input_sizes)` loop at the
end of `_prepare_operation`: bind each supplied size hint to its column,
returning the rebound descriptors (Python mutates them in place). -/
def bindSizesLoop (ds : List Descriptor) (col total_cols : Nat) (s : S) :
    Except (PyExc × S) (List Descriptor × S) :=
  match ds with
  | [] => .ok ([], s)
  | d :: rest =>
    match bind_to_column d col total_cols s with
    | .error es => .error es
    | .ok (d', s') =>
      match bindSizesLoop rest (col + 1) total_cols s' with
      | .error es => .error es
      | .ok (rest', s'') => .ok (d' :: rest', s'')

/-- Embedding of `Cursor._prepare_operation`: prepare the operation text (rollback and
raise on failure); if a distinct prior prepared operation survived, the size
hints are stale and are cleared; record the operation as prepared; bind any
size hints. -/
def prepare_operation (operation : String) (total_cols : Nat) (s : S) :
    Except (PyExc × S) S :=
  let s := addEv s (.prepare s.cur.handle operation)
  if ¬ s.world.prepareOk then rollbackAndRaise s
  else
    let s :=
      if s.cur.prepared_operation ≠ none then
        { s with cur := { s.cur with input_sizes := [] } }
      else s
    let s := { s with cur := { s.cur with prepared_operation := some operation } }
    match bindSizesLoop s.cur.input_sizes 1 total_cols s with
    | .error es => .error es
    | .ok (ds', s') =>
      .ok { s' with cur := { s'.cur with input_sizes := ds' } }

/-- Python 2's `map(None, input_sizes, parameters)`: positional pairing,
padding the shorter sequence with `None`. -/
def zipPad : List Descriptor → List PyValue → List (Option Descriptor × PyValue)
  | [], [] => []
  | [], v :: vs => (none, v) :: zipPad [] vs
  | d :: ds, [] => (some d, PyValue.none) :: zipPad ds []
  | d :: ds, v :: vs => (some d, v) :: zipPad ds vs

/-- The no-size-hints branch of `executemany`'s row loop: for each value,
infer a type descriptor from the runtime type and bind it to its (1-based)
column, accumulating `(descriptor, value)` pairs. -/
def inferBindLoop (params : List PyValue) (col total_cols : Nat) (s : S)
    (acc : List (Descriptor × PyValue)) :
    Except (PyExc × S) (List (Descriptor × PyValue) × S) :=
  match params with
  | [] => .ok (acc, s)
  | v :: vs =>
    match get_db_api_type v with
    | .error e => .error (e, s)
    | .ok d =>
      match bind_to_column d col total_cols s with
      | .error es => .error es
      | .ok (d', s') => inferBindLoop vs (col + 1) total_cols s' (acc ++ [(d', v)])

/-- The `for db_api_type, value in bound_parameters` loop of `executemany`:
set each parameter (a `None` descriptor, produced by `map(None, ...)`
padding, is an `AttributeError` in Python). -/
def setParamsLoop (bound_parameters : List (Option Descriptor × PyValue)) (s : S) :
    Except (PyExc × S) S :=
  match bound_parameters with
  | [] => .ok s
  | (none, _) :: _ =>
    .error (⟨.AttributeError, .str "NoneType object has no attribute set_parameter"⟩, s)
  | (some d, v) :: rest =>
    match set_parameter d v s with
    | .error es => .error es
    | .ok s' => setParamsLoop rest s'

/-- The `for parameters in seq_of_parameters` loop of `executemany`: per row,
pair values with the cached size hints (if any) or infer-and-bind fresh
descriptors, set every parameter, then execute (rollback and raise on a
failed execute). -/
def execRowsLoop (rows : List (List PyValue)) (total_cols : Nat) (s : S) :
    Except (PyExc × S) S :=
  match rows with
  | [] => .ok s
  | parameters :: rest =>
    let step : Except (PyExc × S) S :=
      if s.cur.input_sizes ≠ [] then
        setParamsLoop (zipPad s.cur.input_sizes parameters) s
      else
        match inferBindLoop parameters 1 total_cols s [] with
        | .error es => .error es
        | .ok (bound, s') =>
          setParamsLoop (bound.map fun p => (some p.1, p.2)) s'
    match step with
    | .error es => .error es
    | .ok s' =>
      let s' := addEv s' (.execute s'.cur.handle)
      if ¬ s'.world.executeOk then rollbackAndRaise s'
      else execRowsLoop rest total_cols s'

/-- Embedding of `Cursor.executemany`: assert open; an empty row sequence is an
`InterfaceError` (the source's `IndexError` handler); re-prepare when the
operation text differs from the cached one; run the row loop; then refresh
the description and row count and clear the connection's committed flag. -/
def executemany (operation : String) (seq_of_parameters : List (List PyValue))
    (s : S) : Except (PyExc × S) S :=
  if ¬ (s.cur.isOpen ∧ s.conn.isOpen) then .error (cursorClosedExc, s)
  else
    match seq_of_parameters with
    | [] => .error (⟨.InterfaceError, .str "Parameters are required for .executemany()"⟩, s)
    | first :: _ =>
      let total_cols := first.length
      let prepStep : Except (PyExc × S) S :=
        if some operation ≠ s.cur.prepared_operation then
          prepare_operation operation total_cols s
        else .ok s
      match prepStep with
      | .error es => .error es
      | .ok s1 =>
        match execRowsLoop seq_of_parameters total_cols s1 with
        | .error es => .error es
        | .ok s2 =>
          let s3 := update_description s2
          let s4 := addEv s3 (.getRowCount s3.cur.handle)
          .ok { s4 with cur := { s4.cur with rowcount := s4.world.rowCountVal },
                        conn := { s4.conn with committed := false } }

/-- Embedding of `Cursor.execute`: `executemany(operation, (parameters,))`. -/
def execute (operation : String) (parameters : List PyValue) (s : S) :
    Except (PyExc × S) S :=
  executemany operation [parameters] s

/-- The `for value in parameters` loop of `callproc`: infer a descriptor for
each value and set it without binding first (the source's comment claims
procedure parameters are auto-bound). -/
def callprocParamsLoop (parameters : List PyValue) (s : S) :
    Except (PyExc × S) S :=
  match parameters with
  | [] => .ok s
  | v :: vs =>
    match get_db_api_type v with
    | .error e => .error (e, s)
    | .ok d =>
      match set_parameter d v s with
      | .error es => .error es
      | .ok s' => callprocParamsLoop vs s'

/-- Embedding of `Cursor.callproc`: clears size hints and the cached operation, prepares
the procedure (note: the source passes only `procname` to `odbPrepareProc`,
omitting the handle argument), sets every parameter without binding,
executes once, then refreshes description and row count and clears the
committed flag.  No open-state assertion appears in the source. -/
def callproc (procname : String) (parameters : List PyValue) (s : S) :
    Except (PyExc × S) S :=
  let s := { s with cur := { s.cur with input_sizes := [], prepared_operation := none } }
  let s := addEv s (.prepareProc procname)
  if ¬ s.world.prepareProcOk then rollbackAndRaise s
  else
    match callprocParamsLoop parameters s with
    | .error es => .error es
    | .ok s1 =>
      let s2 := addEv s1 (.execute s1.cur.handle)
      if ¬ s2.world.executeOk then rollbackAndRaise s2
      else
        let s3 := update_description s2
        let s4 := addEv s3 (.getRowCount s3.cur.handle)
        .ok { s4 with cur := { s4.cur with rowcount := s4.world.rowCountVal },
                      conn := { s4.conn with committed := false } }

/-- The per-column inner loop of `fetchmany`: for `column in
range(1, len(description)+1)`, a truncated column raises a `Warning` with
the column index and actual length; otherwise the column's data is decoded
(a missing entry models a null data address, which decodes to `None`). -/
def buildRow (s : S) (current : List PyValue) : List Nat → Except PyExc (List PyValue)
  | [] => .ok []
  | col :: cols =>
    if col ∈ s.world.truncCols then
      let actual := s.world.colActualLens.getD (col - 1) 0
      .error ⟨.Warning,
        .str s!"Column {col} was truncated. Actual size is {actual}."⟩
    else
      match buildRow s current cols with
      | .error e => .error e
      | .ok vs => .ok (current.getD (col - 1) PyValue.none :: vs)

/-- The `while len(rows) < size` loop of `fetchmany`, counted down by the
number of rows still wanted: fetch a row (classified error on failure),
break on no-data, decode the row's columns, append. -/
def fetchLoop (k : Nat) (s : S) (acc : List (List PyValue)) :
    Except (PyExc × S) (List (List PyValue) × S) :=
  match k with
  | 0 => .ok (acc, s)
  | k + 1 =>
    let s := addEv s (.fetchRow s.cur.handle)
    if ¬ s.world.fetchRowOk then .error (getExc s, s)
    else
      let s := addEv s (.noData s.cur.handle)
      match s.world.remaining with
      | [] => .ok (acc, s)
      | current :: rest =>
        let s := { s with world := { s.world with remaining := rest } }
        match s.cur.description with
        | none =>
          .error (⟨.TypeErr, .str "object of type NoneType has no len()"⟩, s)
        | some description =>
          match buildRow s current ((List.range description.length).map (· + 1)) with
          | .error e => .error (e, s)
          | .ok row => fetchLoop k s (acc ++ [row])

/-- Embedding of `Cursor.fetchmany`: assert open, default the size to `arraysize`, run the
fetch loop. -/
def fetchmany (size : Option Nat) (s : S) :
    Except (PyExc × S) (List (List PyValue) × S) :=
  if ¬ (s.cur.isOpen ∧ s.conn.isOpen) then .error (cursorClosedExc, s)
  else fetchLoop (size.getD s.cur.arraysize) s []

/-- Embedding of `Cursor.fetchone`: `fetchmany(1)`; `none` models the `None` returned when
no more data is available. -/
def fetchone (s : S) : Except (PyExc × S) (Option (List PyValue) × S) :=
  match fetchmany (some 1) s with
  | .error es => .error es
  | .ok (result, s') =>
    if result = [] then .ok (none, s')
    else .ok (some (result.headD []), s')

/-- The `while True` loop of `fetchall`, fuel-indexed (the fuel is spent one
unit per `fetchmany` batch; `fetchall` supplies
`remaining.length + 1` units, which the clean-path lemmas show is never
exhausted, each full batch consuming at least one pending row). -/
def fetchallLoop (size fuel : Nat) (s : S) (rows : List (List PyValue)) :
    Except (PyExc × S) (List (List PyValue) × S) :=
  match fuel with
  | 0 => .error (⟨.Error, .str "loop bound exhausted"⟩, s)
  | fuel + 1 =>
    match fetchmany (some size) s with
    | .error es => .error es
    | .ok (new_rows, s') =>
      if new_rows.length < size then .ok (rows ++ new_rows, s')
      else fetchallLoop size fuel s' (rows ++ new_rows)

/-- Embedding of `Cursor.fetchall`: batches of `max(20, arraysize)` rows until a batch
comes back short. -/
def fetchall (s : S) : Except (PyExc × S) (List (List PyValue) × S) :=
  let size := max 20 s.cur.arraysize
  fetchallLoop size (s.world.remaining.length + 1) s []

/-- Embedding of `Cursor.nextset`. -/
def nextset (s : S) : Except (PyExc × S) S :=
  if ¬ (s.cur.isOpen ∧ s.conn.isOpen) then .error (cursorClosedExc, s)
  else
    let s := addEv s (.fetchNextResult s.cur.handle)
    if ¬ s.world.fetchNextOk then .error (getExc s, s) else .ok s

/-- One item of the `sizes` argument of `setinputsizes`: a type-descriptor
instance, a bare integer, or a `None` placeholder. -/
inductive SizeItem where
  | descr (d : Descriptor)
  | int (n : Int)
  | none
  deriving DecidableEq, Repr

/-- The `for item in sizes` loop of `setinputsizes`.  Its body evaluates
`isinstance(item, DbApiTypeObject)`, but no name `DbApiTypeObject` is bound
in `connection.py`: the class is `_DbApiTypeObject`, private to `types.py`
and excluded from `from odbtp.types import *` (and `errors.py` and the
constants module supply no such name).  So the first iteration raises a
`NameError`, whatever the item is; only an empty `sizes` completes the
loop. -/
def setinputsizesLoop : List SizeItem → Option PyExc
  | [] => none
  | _ :: _ => some ⟨.NameError, .str "global name DbApiTypeObject is not defined"⟩

/-- Embedding of `Cursor.setinputsizes` (the source's single-tuple unwrapping of varargs
is left to the caller: `sizes` is the item list).  The loop raises for every
non-empty `sizes`, so the two assignments are reached only with the empty
tuple.  No open-state assertion appears in the source. -/
def setinputsizes (sizes : List SizeItem) (s : S) : Except (PyExc × S) S :=
  match setinputsizesLoop sizes with
  | some e => .error (e, s)
  | none =>
    .ok { s with cur := { s.cur with input_sizes := [], prepared_operation := none } }

/-- Embedding of `Cursor.setoutputsize`: `"""Ignored.""" pass`. -/
def setoutputsize (_size : Int) (_column : Option Nat) (s : S) :
    Except (PyExc × S) S :=
  .ok s

/-! ## Baseline concrete states for witnesses and counterexamples -/

/-- A transport world with every primitive succeeding and a server-side
syntax-error recorded as the handle error state. -/
def world0 : World :=
  { nextHandle := 3, trace := [], errState := (.SERVER, "[42000] syntax error") }

/-- An open connection with session handle 1. -/
def conn0 : Conn := { isOpen := true, handle := 1, committed := false }

/-- A freshly initialized open cursor with handle 2. -/
def cur0 : Cur :=
  { isOpen := true, handle := 2, arraysize := 1, description := none,
    prepared_operation := none, input_sizes := [], rowcount := -1 }

/-- The baseline state: open connection, fresh open cursor, clean world. -/
def s0 : S := { conn := conn0, cur := cur0, world := world0 }

/-- Whether a trace event is a rollback transport call. -/
def Ev.isRollback : Ev → Bool
  | .rollback _ => true
  | _ => false

/-- Number of rollback transport calls recorded in a trace. -/
def countRollback (tr : List Ev) : Nat := (tr.filter Ev.isRollback).length

/-- A closed cursor on an otherwise clean open connection. -/
def sClosed : S := { s0 with cur := { cur0 with isOpen := false } }

/-- A family of open states over an arbitrary committed flag, prior trace and
outcome of the prepare / prepare-procedure / execute transport calls. -/
def s7 (committed : Bool) (tr : List Ev) (prepOk prepProcOk execOk : Bool) : S :=
  { conn := { isOpen := true, handle := 1, committed := committed },
    cur := cur0,
    world := { world0 with
      trace := tr
      prepareOk := prepOk
      prepareProcOk := prepProcOk
      executeOk := execOk } }

/-- The baseline state with the execute transport call failing. -/
def s7ex : S := { s0 with world := { world0 with executeOk := false } }

/-- An open cursor over a one-column result set with three pending rows. -/
def sRows : S :=
  { s0 with
    cur := { cur0 with description := some [("a", ODB_INT)] },
    world := { world0 with remaining := [[.int 1], [.int 2], [.int 3]] } }

/-! ## Claims -/

/-- Claim C2: `get_odb_type` resolves the column type by the ordered rules:
equal signals return the wire type; SQL 91 with generic character resolves to
the date type; SQL 92 with generic character to the time type; SQL -9 with
wide character falls back to narrow character; SQL 2 with wire value 1 to the
decimal/numeric type; any other pair returns the wire type as reported. -/
theorem get_odb_type_resolution :
    (∀ o : Int, get_odb_type o o = o) ∧
    get_odb_type 91 ODB_CHAR = ODB_DATE ∧
    get_odb_type 92 ODB_CHAR = ODB_TIME ∧
    get_odb_type (-9) ODB_WCHAR = ODB_CHAR ∧
    get_odb_type 2 1 = ODB_NUMERIC ∧
    (∀ sql_type odb_type : Int, sql_type ≠ odb_type →
      ¬(sql_type = 91 ∧ odb_type = ODB_CHAR) →
      ¬(sql_type = 92 ∧ odb_type = ODB_CHAR) →
      ¬(sql_type = -9 ∧ odb_type = ODB_WCHAR) →
      ¬(sql_type = 2 ∧ odb_type = 1) →
      get_odb_type sql_type odb_type = odb_type) := by
  refine ⟨?_, by decide, by decide, by decide, by decide, ?_⟩
  · intro o; simp [get_odb_type]
  · intro st ot h1 h2 h3 h4 h5
    simp only [get_odb_type]
    rw [if_neg h1, if_neg h2, if_neg h3, if_neg h4, if_neg h5]

/-- Witness for C2: the catch-all rule evaluated at the concrete pair
`(5, 7)`, every hypothesis discharged there. -/
theorem get_odb_type_resolution_witness : get_odb_type 5 7 = 7 :=
  get_odb_type_resolution.2.2.2.2.2 5 7 (by decide) (by decide) (by decide)
    (by decide) (by decide)

/-- Claim C3 (evaluation at the failing input): constructing `NUMBER` with
the default sub_type `'numeric'` raises `ProgrammingError` (only `'int'`,
`'float'` and `'decimal'` are accepted), so type inference on a `Decimal`
value, which calls `NUMBER()`, raises as well — contradicting the claim that
`'numeric'` succeeds with a text-rendering descriptor.  The `'int'`,
`'float'` and `'decimal'` sub_types behave as the claim states. -/
theorem NUMBER_subtype_behavior :
    NUMBER_init "numeric" = .error ⟨.ProgrammingError, .str "Illegal sub_type for NUMBER."⟩ ∧
    NUMBER_init = .error ⟨.ProgrammingError, .str "Illegal sub_type for NUMBER."⟩ ∧
    get_db_api_type (.decimal "3.14") =
      .error ⟨.ProgrammingError, .str "Illegal sub_type for NUMBER."⟩ ∧
    (∃ d, NUMBER_init "int" = .ok d ∧ d.odb_type = ODB_BIGINT ∧
      d.sql_type = SQL_BIGINT ∧ d.odb_set_func = .longlong) ∧
    (∃ d, NUMBER_init "float" = .ok d ∧ d.odb_type = ODB_DOUBLE ∧
      d.sql_type = SQL_DOUBLE ∧ d.odb_set_func = .double) ∧
    (∃ d, NUMBER_init "decimal" = .ok d ∧ d.odb_type = ODB_CHAR ∧
      d.sql_type = SQL_CHAR ∧ d.odb_set_func = .text) := by
  exact ⟨rfl, rfl, rfl, ⟨_, rfl, rfl, rfl, rfl⟩, ⟨_, rfl, rfl, rfl, rfl⟩,
    ⟨_, rfl, rfl, rfl, rfl⟩⟩

/-- Claim C1: `get_exception` classifies by the two-level table: a protocol
code in the fixed table maps to its fixed exception instance (e.g. the
connect-timeout code to `InterfaceError('Connection timed out.')`); on the
server-error code, empty or sentinel `'None'` stripped text yields a generic
`Error`; text whose first line has fewer than two `']'`-delimited segments
yields a generic `Error` carrying the raw protocol code; class `'HY'` with a
subcode outside `HY_ERROR_CODES` yields the class-table default
`ProgrammingError`; class `'HY'` subcode `'000'` yields a generic `Error`;
class `'23'` yields `IntegrityError`; a class code in neither table yields a
generic `Error` carrying the normalized text. -/
theorem get_exception_classification :
    (∀ e t exc, ODBTP_ERRORS e = some exc → get_exception e t = exc) ∧
    (∀ t, get_exception .TIMEOUTCONN t =
      ⟨.InterfaceError, .str "Connection timed out."⟩) ∧
    (∀ t, pyStrip t.data = [] ∨ pyStrip t.data = "None".data →
      get_exception .SERVER t = ⟨.Error, .str "Unknown Error."⟩) ∧
    (∀ t, pyStrip t.data ≠ [] → pyStrip t.data ≠ "None".data →
      (errorPartsL t).length < 2 →
      get_exception .SERVER t = ⟨.Error, .code .SERVER⟩) ∧
    (∀ t, pyStrip t.data ≠ [] → pyStrip t.data ≠ "None".data →
      ¬ (errorPartsL t).length < 2 →
      errClassCode t = "HY" → HY_ERROR_CODES (errSubCode t) = none →
      get_exception .SERVER t = ⟨.ProgrammingError, .str (normText t)⟩) ∧
    (∀ t, pyStrip t.data ≠ [] → pyStrip t.data ≠ "None".data →
      ¬ (errorPartsL t).length < 2 →
      errClassCode t = "HY" → errSubCode t = "000" →
      get_exception .SERVER t = ⟨.Error, .str (normText t)⟩) ∧
    (∀ t, pyStrip t.data ≠ [] → pyStrip t.data ≠ "None".data →
      ¬ (errorPartsL t).length < 2 →
      errClassCode t = "23" →
      get_exception .SERVER t = ⟨.IntegrityError, .str (normText t)⟩) ∧
    (∀ t, pyStrip t.data ≠ [] → pyStrip t.data ≠ "None".data →
      ¬ (errorPartsL t).length < 2 →
      ODBC_ERROR_CODES (errClassCode t) = none →
      get_exception .SERVER t = ⟨.Error, .str (normText t)⟩) := by
  refine ⟨?_, fun t => rfl, ?_, ?_, ?_, ?_, ?_, ?_⟩
  · intro e t exc h
    have hne : ¬ e = OdbtpErr.NONE := by rintro rfl; simp [ODBTP_ERRORS] at h
    simp [get_exception, hne, h]
  · intro t h
    simp only [get_exception]
    norm_num [if_pos h]
    rfl
  · intro t h1 h2 h3
    have h12 : ¬ (pyStrip t.data = [] ∨ pyStrip t.data = "None".data) := by
      rintro (h | h) <;> [exact h1 h; exact h2 h]
    simp only [get_exception]
    norm_num [if_neg h12, if_pos h3]
    rfl
  · intro t h1 h2 h3 hc hs
    have h12 : ¬ (pyStrip t.data = [] ∨ pyStrip t.data = "None".data) := by
      rintro (h | h) <;> [exact h1 h; exact h2 h]
    have hcond : ¬ (errClassCode t = "HY" ∧ (HY_ERROR_CODES (errSubCode t)).isSome = true) := by
      rintro ⟨-, hso⟩; rw [hs] at hso; exact absurd hso (by decide)
    simp only [get_exception]
    rw [if_neg (by decide), if_neg h12, if_neg h3, if_neg hcond, hc]
    rfl
  · intro t h1 h2 h3 hc hs
    have h12 : ¬ (pyStrip t.data = [] ∨ pyStrip t.data = "None".data) := by
      rintro (h | h) <;> [exact h1 h; exact h2 h]
    have hcond : errClassCode t = "HY" ∧ (HY_ERROR_CODES (errSubCode t)).isSome = true := by
      rw [hc, hs]; exact ⟨rfl, rfl⟩
    simp only [get_exception]
    rw [if_neg (by decide), if_neg h12, if_neg h3, if_pos hcond, hs]
    rfl
  · intro t h1 h2 h3 hc
    have h12 : ¬ (pyStrip t.data = [] ∨ pyStrip t.data = "None".data) := by
      rintro (h | h) <;> [exact h1 h; exact h2 h]
    have hcond : ¬ (errClassCode t = "HY" ∧ (HY_ERROR_CODES (errSubCode t)).isSome = true) := by
      rintro ⟨hhy, -⟩; rw [hc] at hhy; exact absurd hhy (by decide)
    simp only [get_exception]
    rw [if_neg (by decide), if_neg h12, if_neg h3, if_neg hcond, hc]
    rfl
  · intro t h1 h2 h3 hn
    have h12 : ¬ (pyStrip t.data = [] ∨ pyStrip t.data = "None".data) := by
      rintro (h | h) <;> [exact h1 h; exact h2 h]
    have hhy : errClassCode t ≠ "HY" := by
      intro h; rw [h] at hn; exact absurd hn (by decide)
    have hcond : ¬ (errClassCode t = "HY" ∧ (HY_ERROR_CODES (errSubCode t)).isSome = true) := by
      rintro ⟨h, -⟩; exact hhy h
    simp only [get_exception]
    rw [if_neg (by decide), if_neg h12, if_neg h3, if_neg hcond, hn]
    rfl

/-- Witness for C1: each classification branch applied at a concrete input:
the connect-timeout table entry, sentinel text, bracketless text, unlisted
`HY` subcode, `HY000`, an integrity-class SQLSTATE, and a class in neither
table. -/
theorem get_exception_classification_witness :
    get_exception .TIMEOUTCONN "" = ⟨.InterfaceError, .str "Connection timed out."⟩ ∧
    get_exception .SERVER "  None " = ⟨.Error, .str "Unknown Error."⟩ ∧
    get_exception .SERVER "no brackets" = ⟨.Error, .code .SERVER⟩ ∧
    get_exception .SERVER "[HY123] mystery" = ⟨.ProgrammingError, .str "[HY123] mystery"⟩ ∧
    get_exception .SERVER "[HY000] generic failure" = ⟨.Error, .str "[HY000] generic failure"⟩ ∧
    get_exception .SERVER "[23000] constraint violated" =
      ⟨.IntegrityError, .str "[23000] constraint violated"⟩ ∧
    get_exception .SERVER "[XX999] odd" = ⟨.Error, .str "[XX999] odd"⟩ := by
  obtain ⟨-, h2, h3, h4, h5, h6, h7, h8⟩ := get_exception_classification
  refine ⟨h2 "", h3 "  None " (by decide), h4 "no brackets" (by decide) (by decide) (by decide),
    ?_, ?_, ?_, ?_⟩
  · have := h5 "[HY123] mystery" (by decide) (by decide) (by decide) (by decide) (by decide)
    exact this.trans (by decide)
  · have := h6 "[HY000] generic failure" (by decide) (by decide) (by decide) (by decide) (by decide)
    exact this.trans (by decide)
  · have := h7 "[23000] constraint violated" (by decide) (by decide) (by decide) (by decide)
    exact this.trans (by decide)
  · have := h8 "[XX999] odd" (by decide) (by decide) (by decide) (by decide)
    exact this.trans (by decide)

/-- Claim C4 (evaluation at the failing inputs): `setinputsizes` raises
`NameError` — not `InterfaceError` — for every non-empty argument list,
whether the items are bare integers, `None` placeholders or genuine type
descriptors, because the loop body references the unbound name
`DbApiTypeObject`; the cached hints and prepared operation are only replaced
on the empty-argument path.  The state is left unchanged on the raising
paths. -/
theorem setinputsizes_raises_nameerror :
    setinputsizes [.int 5] s0 =
      .error (⟨.NameError, .str "global name DbApiTypeObject is not defined"⟩, s0) ∧
    setinputsizes [.none] s0 =
      .error (⟨.NameError, .str "global name DbApiTypeObject is not defined"⟩, s0) ∧
    setinputsizes [.descr (STRING_init 25)] s0 =
      .error (⟨.NameError, .str "global name DbApiTypeObject is not defined"⟩, s0) ∧
    setinputsizes [] s0 = .ok s0 :=
  ⟨rfl, rfl, rfl, rfl⟩

/-- Claim C5: `executemany` on an open cursor with an empty sequence of
parameter rows raises `InterfaceError('Parameters are required for
.executemany()')` and returns the state untouched — before any prepare or
execute transport call. -/
theorem executemany_empty_params (s : S) (op : String)
    (h1 : s.cur.isOpen) (h2 : s.conn.isOpen) :
    executemany op [] s =
      .error (⟨.InterfaceError, .str "Parameters are required for .executemany()"⟩, s) := by
  simp only [executemany]
  rw [if_neg (by simp [h1, h2])]

/-- Witness for C5: the empty-parameters error evaluated on the baseline
open state. -/
theorem executemany_empty_params_witness :
    executemany "SELECT 1" [] s0 =
      .error (⟨.InterfaceError, .str "Parameters are required for .executemany()"⟩, s0) :=
  executemany_empty_params s0 "SELECT 1" rfl rfl

/-- Claim C9 (evaluation at the failing input): `callproc` with one (integer)
parameter prepares the procedure, then fails with `InterfaceError('You must
bind a parameter before setting.')` — the descriptors produced by
`get_db_api_type` are never bound, and `set_parameter`'s guard fires despite
the source's comment that procedure parameters need no binding.  With no
parameters the call goes through, showing the failure is precisely the
parameter-setting step. -/
theorem callproc_unbound_parameter :
    (∃ s', callproc "myproc" [.int 7] s0 =
      .error (⟨.InterfaceError, .str "You must bind a parameter before setting."⟩, s') ∧
      s'.world.trace = [.prepareProc "myproc"]) ∧
    (∃ s', callproc "myproc" [] s0 = .ok s') :=
  ⟨⟨_, rfl, rfl⟩, ⟨_, rfl⟩⟩

/-- Claim C10: `Connection.cursor()` on an open connection performs exactly
two child-handle allocations under the session handle; the first allocated
handle is only ever bound to the discarded local (it differs from the
returned cursor's handle, the connection is unchanged, and no free call is
recorded), and the returned cursor holds the second handle. -/
theorem cursor_allocates_twice (s : S) (h : s.conn.isOpen)
    (halloc : s.world.allocOk) (hnz : 0 < s.world.nextHandle) :
    ∃ c s', Connection_cursor s = .ok (c, s') ∧
      c.handle = s.world.nextHandle + 1 ∧
      s'.world.trace = s.world.trace ++
        [.allocate s.conn.handle s.world.nextHandle,
         .allocate s.conn.handle (s.world.nextHandle + 1)] ∧
      s.world.nextHandle ≠ c.handle ∧
      s'.conn = s.conn ∧ s'.cur = s.cur ∧
      (∀ h', Ev.free h' ∈ s'.world.trace ↔ Ev.free h' ∈ s.world.trace) := by
  have h0 : ¬ s.world.nextHandle = 0 := Nat.pos_iff_ne_zero.mp hnz
  refine ⟨{ isOpen := true, handle := s.world.nextHandle + 1, arraysize := 1,
            description := none, prepared_operation := none, input_sizes := [],
            rowcount := -1 },
          { s with world := { s.world with
              nextHandle := s.world.nextHandle + 1 + 1,
              trace := (s.world.trace ++ [Ev.allocate s.conn.handle s.world.nextHandle])
                ++ [Ev.allocate s.conn.handle (s.world.nextHandle + 1)] } },
          ?_, rfl, ?_, ?_, rfl, rfl, ?_⟩
  · simp only [Connection_cursor, odbAllocate, addEv]
    rw [if_neg (by simp [h])]
    simp only [halloc, if_true, if_neg h0]
    rw [if_neg (by simp)]
  · simp
  · show s.world.nextHandle ≠ s.world.nextHandle + 1
    omega
  · intro h'
    simp [List.mem_append]

/-- Witness for C10: the double allocation evaluated on the baseline state
(session handle 1, next fresh handle 3): the discarded handle is 3 and the
cursor receives handle 4. -/
theorem cursor_allocates_twice_witness :
    ∃ c s', Connection_cursor s0 = .ok (c, s') ∧
      c.handle = s0.world.nextHandle + 1 ∧
      s'.world.trace = s0.world.trace ++
        [.allocate s0.conn.handle s0.world.nextHandle,
         .allocate s0.conn.handle (s0.world.nextHandle + 1)] ∧
      s0.world.nextHandle ≠ c.handle ∧
      s'.conn = s0.conn ∧ s'.cur = s0.cur ∧
      (∀ h', Ev.free h' ∈ s'.world.trace ↔ Ev.free h' ∈ s0.world.trace) :=
  cursor_allocates_twice s0 rfl rfl (by decide)

/-- Counterexample to C6 as stated: on a closed cursor, `setoutputsize`
returns normally without touching anything, `setinputsizes` with an empty
argument list returns normally (silently mutating the cursor), and
`callproc` runs to completion, making transport calls — none of the three
raises an interface-level error. -/
theorem closed_cursor_silent_ops :
    setoutputsize 10 none sClosed = .ok sClosed ∧
    (∃ s', setinputsizes [] sClosed = .ok s') ∧
    (∃ s', callproc "p" [] sClosed = .ok s' ∧
      s'.world.trace ≠ sClosed.world.trace) := by
  refine ⟨rfl, ⟨_, rfl⟩, ⟨_, rfl, ?_⟩⟩
  decide

/-- Claim C6 as amended: the public cursor operations that do assert the
open state — `execute`, `executemany`, `fetchone`, `fetchmany`, `fetchall`
and `nextset` — raise `InterfaceError('Cursor or connection has been
closed.')` on a closed cursor or connection, returning the state untouched
(no transport call); `callproc`, `setinputsizes` and `setoutputsize` perform
no such check. -/
theorem closed_cursor_ops_raise (s : S) (h : ¬ (s.cur.isOpen ∧ s.conn.isOpen))
    (op : String) (params : List PyValue) (rows : List (List PyValue)) (n : Nat) :
    executemany op rows s = .error (cursorClosedExc, s) ∧
    execute op params s = .error (cursorClosedExc, s) ∧
    fetchmany (some n) s = .error (cursorClosedExc, s) ∧
    fetchmany none s = .error (cursorClosedExc, s) ∧
    fetchone s = .error (cursorClosedExc, s) ∧
    fetchall s = .error (cursorClosedExc, s) ∧
    nextset s = .error (cursorClosedExc, s) := by
  have hm : ∀ sz, fetchmany sz s = .error (cursorClosedExc, s) := by
    intro sz
    simp only [fetchmany]
    rw [if_pos h]
  refine ⟨?_, ?_, hm _, hm _, ?_, ?_, ?_⟩
  · simp only [executemany]
    rw [if_pos h]
  · simp only [execute, executemany]
    rw [if_pos h]
  · simp only [fetchone]
    rw [hm (some 1)]
  · simp only [fetchall, fetchallLoop]
    rw [hm (some (max 20 s.cur.arraysize))]
  · simp only [nextset]
    rw [if_pos h]

/-- Witness for the amended C6: the seven asserting operations evaluated on
the concrete closed-cursor state. -/
theorem closed_cursor_ops_raise_witness :
    executemany "q" [[.int 1]] sClosed = .error (cursorClosedExc, sClosed) ∧
    execute "q" [.int 1] sClosed = .error (cursorClosedExc, sClosed) ∧
    fetchmany (some 5) sClosed = .error (cursorClosedExc, sClosed) ∧
    fetchmany none sClosed = .error (cursorClosedExc, sClosed) ∧
    fetchone sClosed = .error (cursorClosedExc, sClosed) ∧
    fetchall sClosed = .error (cursorClosedExc, sClosed) ∧
    nextset sClosed = .error (cursorClosedExc, sClosed) :=
  closed_cursor_ops_raise sClosed (by decide) "q" [.int 1] [[.int 1]] 5

/-- Counterexample to C7 as stated: after a successful commit, a failed
execute raises with exactly one rollback transport call issued — but the
connection's committed flag is still `true`, not `false` as the claim
requires. -/
theorem failed_execute_commit_counterexample :
    ∃ s1 e s2, Connection_commit s7ex = .ok s1 ∧ s1.conn.committed = true ∧
      executemany "INSERT INTO t VALUES (?)" [[.int 5]] s1 = .error (e, s2) ∧
      s2.conn.committed = true ∧
      countRollback s2.world.trace = 1 :=
  ⟨_, _, _, rfl, rfl, rfl, rfl, rfl⟩

/-- Claim C7 as amended: after a failed execute, prepare or
prepare-procedure transport call, exactly one rollback transport call has
been issued before the classified error is raised, and the connection's
committed flag is left unchanged (in particular it stays `true` when a
successful commit preceded the failure, and stays `false` otherwise) — for
every prior committed flag, prior trace, operation text and parameter
value. -/
theorem failed_execution_rolls_back_once (committed : Bool) (tr : List Ev)
    (op procname : String) (k : Int) :
    (∃ e s', executemany op [[.int k]] (s7 committed tr true true false) = .error (e, s') ∧
      countRollback s'.world.trace = countRollback tr + 1 ∧
      s'.conn.committed = committed) ∧
    (∃ e s', executemany op [[.int k]] (s7 committed tr false true true) = .error (e, s') ∧
      countRollback s'.world.trace = countRollback tr + 1 ∧
      s'.conn.committed = committed) ∧
    (∃ e s', callproc procname [] (s7 committed tr true false true) = .error (e, s') ∧
      countRollback s'.world.trace = countRollback tr + 1 ∧
      s'.conn.committed = committed) := by
  refine ⟨⟨_, _, rfl, ?_, rfl⟩, ⟨_, _, rfl, ?_, rfl⟩, ⟨_, _, rfl, ?_, rfl⟩⟩
  all_goals
    simp [s7, cur0, world0, conn0, addEv, countRollback, Ev.isRollback,
      List.filter_append]

theorem buildRow_no_trunc (s : S) (current : List PyValue) (cols : List Nat)
    (h : s.world.truncCols = []) :
    buildRow s current cols = .ok (cols.map fun c => current.getD (c - 1) PyValue.none) := by
  induction cols with
  | nil => rfl
  | cons c cs ih => simp [buildRow, h, ih]

theorem range_map_getD (l : List PyValue) :
    (List.range l.length).map (fun i => l.getD i PyValue.none) = l := by
  induction l with
  | nil => rfl
  | cons a t ih =>
    rw [List.length_cons, List.range_succ_eq_map, List.map_cons, List.map_map]
    simp only [List.getD_cons_zero]
    rw [show ((fun i => (a :: t).getD i PyValue.none) ∘ Nat.succ) =
        (fun i => t.getD i PyValue.none) from funext fun i => rfl, ih]

theorem buildRow_id (s : S) (current : List PyValue) (n : Nat)
    (h : s.world.truncCols = []) (hlen : current.length = n) :
    buildRow s current ((List.range n).map (· + 1)) = .ok current := by
  subst hlen
  rw [buildRow_no_trunc s current _ h, List.map_map]
  congr 1
  have : ((fun c => current.getD (c - 1) PyValue.none) ∘ (· + 1)) =
      fun i => current.getD i PyValue.none := by
    funext i
    simp [Function.comp]
  rw [this, range_map_getD]

theorem fetchLoop_clean (k : Nat) :
    ∀ (s : S) (acc : List (List PyValue)) (d : List (String × Int)),
    s.world.fetchRowOk = true →
    s.world.truncCols = [] →
    s.cur.description = some d →
    (∀ r ∈ s.world.remaining, r.length = d.length) →
    ∃ s', fetchLoop k s acc = .ok (acc ++ s.world.remaining.take k, s') ∧
      s'.world.remaining = s.world.remaining.drop k ∧
      s'.cur = s.cur ∧ s'.conn = s.conn ∧
      s'.world.fetchRowOk = true ∧ s'.world.truncCols = [] := by
  induction k with
  | zero =>
    intro s acc d h1 h2 h3 _
    exact ⟨s, by simp [fetchLoop], by simp, rfl, rfl, h1, h2⟩
  | succ k ih =>
    intro s acc d h1 h2 h3 h4
    simp only [fetchLoop, addEv]
    rw [if_neg (by simp [h1])]
    cases hrem : s.world.remaining with
    | nil =>
      dsimp only
      refine ⟨{ s with world := { s.world with
          trace := s.world.trace ++ [Ev.fetchRow s.cur.handle] ++ [Ev.noData s.cur.handle]
          remaining := [] } }, ?_, rfl, rfl, rfl, h1, h2⟩
      simp only [List.take_nil, List.append_nil]
    | cons current rest =>
      rw [h3]
      dsimp only
      rw [buildRow_id]
      · dsimp only
        have h4' : ∀ r ∈ rest, r.length = d.length := fun r hr =>
          h4 r (by rw [hrem]; exact List.mem_cons_of_mem _ hr)
        obtain ⟨s', heq, hrem', hcur, hconn, hf, ht⟩ :=
          ih { s with world := { s.world with
                trace := s.world.trace ++ [Ev.fetchRow s.cur.handle] ++ [Ev.noData s.cur.handle]
                remaining := rest } }
            (acc ++ [current]) d h1 h2 h3 h4'
        refine ⟨s', ?_, ?_, hcur, hconn, hf, ht⟩
        · rw [heq]
          simp [List.take_succ_cons]
        · rw [hrem']
          simp [List.drop_succ_cons]
      · exact h2
      · exact h4 current (by rw [hrem]; exact List.mem_cons_self _ _)

theorem fetchmany_clean (n : Nat) (s : S) (d : List (String × Int))
    (ho1 : s.cur.isOpen = true) (ho2 : s.conn.isOpen = true)
    (h1 : s.world.fetchRowOk = true) (h2 : s.world.truncCols = [])
    (h3 : s.cur.description = some d)
    (h4 : ∀ r ∈ s.world.remaining, r.length = d.length) :
    ∃ s', fetchmany (some n) s = .ok (s.world.remaining.take n, s') ∧
      s'.world.remaining = s.world.remaining.drop n ∧
      s'.cur = s.cur ∧ s'.conn = s.conn ∧
      s'.world.fetchRowOk = true ∧ s'.world.truncCols = [] := by
  obtain ⟨s', heq, hr⟩ := fetchLoop_clean n s [] d h1 h2 h3 h4
  refine ⟨s', ?_, hr.1, hr.2.1, hr.2.2.1, hr.2.2.2.1, hr.2.2.2.2⟩
  simp only [fetchmany]
  rw [if_neg (by simp [ho1, ho2])]
  simpa using heq

theorem fetchallLoop_clean (fuel : Nat) :
    ∀ (size : Nat) (s : S) (rows : List (List PyValue)) (d : List (String × Int)),
    0 < size →
    s.cur.isOpen = true → s.conn.isOpen = true →
    s.world.fetchRowOk = true → s.world.truncCols = [] →
    s.cur.description = some d →
    (∀ r ∈ s.world.remaining, r.length = d.length) →
    s.world.remaining.length < fuel →
    ∃ s', fetchallLoop size fuel s rows = .ok (rows ++ s.world.remaining, s') ∧
      s'.world.remaining = [] := by
  induction fuel with
  | zero =>
    intro size s rows d _ _ _ _ _ _ _ hfuel
    omega
  | succ fuel ih =>
    intro size s rows d hsz ho1 ho2 h1 h2 h3 h4 hfuel
    obtain ⟨s1, heq, hrem, hcur, hconn, hf, ht⟩ := fetchmany_clean size s d ho1 ho2 h1 h2 h3 h4
    simp only [fetchallLoop]
    rw [heq]
    dsimp only
    by_cases hlt : (s.world.remaining.take size).length < size
    · rw [if_pos hlt]
      have hlen : s.world.remaining.length < size := by
        simp [List.length_take] at hlt
        omega
      refine ⟨s1, ?_, ?_⟩
      · rw [List.take_of_length_le (Nat.le_of_lt hlen)]
      · rw [hrem, List.drop_eq_nil_of_le (Nat.le_of_lt hlen)]
    · rw [if_neg hlt]
      have hge : size ≤ s.world.remaining.length := by
        simp [List.length_take] at hlt
        omega
      obtain ⟨s', heq', hrem'⟩ :=
        ih size s1 (rows ++ s.world.remaining.take size) d hsz
          (hcur ▸ ho1) (hconn ▸ ho2) hf ht (hcur ▸ h3)
          (fun r hr => h4 r (List.drop_subset _ _ (hrem ▸ hr)))
          (by rw [hrem, List.length_drop]; omega)
      refine ⟨s', ?_, hrem'⟩
      rw [heq', hrem, List.append_assoc, List.take_append_drop]

theorem fetchLoop_length (k : Nat) :
    ∀ (s : S) (acc rows : List (List PyValue)) (s' : S),
    fetchLoop k s acc = .ok (rows, s') → rows.length ≤ acc.length + k := by
  induction k with
  | zero =>
    intro s acc rows s' h
    simp only [fetchLoop, Except.ok.injEq, Prod.mk.injEq] at h
    obtain ⟨h1, -⟩ := h
    simp [← h1]
  | succ k ih =>
    intro s acc rows s' h
    simp only [fetchLoop, addEv] at h
    split at h
    · simp at h
    · split at h
      · simp only [Except.ok.injEq, Prod.mk.injEq] at h
        obtain ⟨h1, -⟩ := h
        simp [← h1]
      · split at h
        · simp at h
        · split at h
          · simp at h
          · have := ih _ _ _ _ h
            simp [List.length_append] at this
            omega

theorem fetchLoop_empty (k : Nat) (s : S) (h1 : s.world.fetchRowOk = true)
    (hrem : s.world.remaining = []) :
    ∃ s', fetchLoop k s [] = .ok ([], s') ∧ s'.world.remaining = [] ∧
      s'.cur = s.cur ∧ s'.conn = s.conn ∧ s'.world.fetchRowOk = true := by
  cases k with
  | zero => exact ⟨s, rfl, hrem, rfl, rfl, h1⟩
  | succ k =>
    simp only [fetchLoop, addEv]
    rw [if_neg (by simp [h1])]
    rw [hrem]
    exact ⟨{ s with world := { s.world with
        trace := s.world.trace ++ [Ev.fetchRow s.cur.handle] ++ [Ev.noData s.cur.handle]
        remaining := [] } },
      rfl, rfl, rfl, rfl, h1⟩

/-- Claim C8: `fetchmany(n)` returns at most `n` rows; `fetchall` (which
batches by `max(20, arraysize)` until a short batch) drains and returns the
pending rows in arrival order, finishing with an exhausted result set; and
on an exhausted result set, `fetchmany` and `fetchall` return an empty list
and `fetchone` the no-more-data signal, not an error. -/
theorem fetch_results_behavior :
    (∀ n s rows s', fetchmany (some n) s = .ok (rows, s') → rows.length ≤ n) ∧
    (∀ s d, s.cur.isOpen = true → s.conn.isOpen = true →
      s.world.fetchRowOk = true → s.world.truncCols = [] →
      s.cur.description = some d →
      (∀ r ∈ s.world.remaining, r.length = d.length) →
      ∃ s', fetchall s = .ok (s.world.remaining, s') ∧ s'.world.remaining = []) ∧
    (∀ s n, s.cur.isOpen = true → s.conn.isOpen = true →
      s.world.fetchRowOk = true → s.world.remaining = [] →
      (∃ s', fetchmany (some n) s = .ok ([], s')) ∧
      (∃ s', fetchall s = .ok ([], s')) ∧
      (∃ s', fetchone s = .ok (none, s'))) := by
  refine ⟨?_, ?_, ?_⟩
  · intro n s rows s' h
    simp only [fetchmany] at h
    split at h
    · exact absurd h (by simp)
    · have := fetchLoop_length n s [] rows s' (by simpa using h)
      simpa using this
  · intro s d ho1 ho2 h1 h2 h3 h4
    obtain ⟨s', heq, hrem⟩ :=
      fetchallLoop_clean (s.world.remaining.length + 1) (max 20 s.cur.arraysize) s [] d
        (by omega) ho1 ho2 h1 h2 h3 h4 (by omega)
    refine ⟨s', ?_, hrem⟩
    simp only [fetchall]
    simpa using heq
  · intro s n ho1 ho2 h1 hrem
    have hm : ∀ m, ∃ s', fetchmany (some m) s = .ok ([], s') ∧
        s'.world.remaining = [] ∧ s'.cur = s.cur ∧ s'.conn = s.conn ∧
        s'.world.fetchRowOk = true := by
      intro m
      obtain ⟨s', heq, h⟩ := fetchLoop_empty m s h1 hrem
      refine ⟨s', ?_, h⟩
      simp only [fetchmany]
      rw [if_neg (by simp [ho1, ho2])]
      simpa using heq
    obtain ⟨s1, heq1, -⟩ := hm n
    obtain ⟨s2, heq2, -⟩ := hm (max 20 s.cur.arraysize)
    obtain ⟨s3, heq3, -⟩ := hm 1
    refine ⟨⟨s1, heq1⟩, ⟨s2, ?_⟩, ⟨s3, ?_⟩⟩
    · simp only [fetchall, fetchallLoop, hrem]
      rw [heq2]
      simp
    · simp only [fetchone]
      rw [heq3]
      simp

/-- Witness for C8: the three parts applied at concrete states — a bound on
a two-row batch from the three-row result set, a full `fetchall` drain of
it, and the three exhausted-result calls on the baseline (empty result set)
state. -/
theorem fetch_results_behavior_witness :
    ([[PyValue.int 1], [PyValue.int 2]] : List (List PyValue)).length ≤ 2 ∧
    (∃ s', fetchall sRows =
      .ok ([[PyValue.int 1], [PyValue.int 2], [PyValue.int 3]], s') ∧
      s'.world.remaining = []) ∧
    ((∃ s', fetchmany (some 7) s0 = .ok ([], s')) ∧
     (∃ s', fetchall s0 = .ok ([], s')) ∧
     (∃ s', fetchone s0 = .ok (none, s'))) := by
  obtain ⟨h1, h2, h3⟩ := fetch_results_behavior
  refine ⟨h1 2 sRows _ _ rfl, ?_, h3 s0 7 rfl rfl rfl rfl⟩
  exact h2 sRows [("a", ODB_INT)] rfl rfl rfl rfl rfl (by decide)

end Odbtp
